import Mathlib

/-
Formal model of the navigation/content layer of the Bash-guide
documentation repository.

The repository itself contains no resolver code: it consists of the
Starlight site configuration (`astro.config.mjs` and its draft variants)
and a directory of Markdown documents.  The data model (Document,
NavigationEntry, NavigationTree, Content Store) and the Navigation
Resolver are therefore modelled from the specification, while the
concrete navigation trees and the concrete document corpus below are
transcribed directly from the repository's files.
-/

namespace BashGuide

/-- A content document.  `path` is the unique slug derived from the file
location.  The front-matter fields `title` and `description` are carried
as `Option String` because the content scan reads them from each file's
front-matter, where either field could in principle be absent; the
specification requires both to be present, which is verified for the
concrete corpus below. -/
structure Document where
  path : String
  title : Option String
  description : Option String
  deriving DecidableEq, Repr

/-- Modelled from the spec: a navigation entry is either a `Link`
(label plus a path referencing a Document) or a `Group` (label plus an
ordered sequence of child entries). -/
inductive NavigationEntry where
  | link (label : String) (path : String)
  | group (label : String) (children : List NavigationEntry)
  deriving Repr

/-- Modelled from the spec: a navigation tree is an ordered sequence of
top-level navigation entries. -/
abbrev NavigationTree := List NavigationEntry

/-- Modelled from the spec: the Content Store, the set of all documents,
keyed by path.  It is carried as a list of documents; lookup is by
path. -/
abbrev Store := List Document

/-- Look a path up in the store: the first document whose `path` equals
the requested path, if any. -/
def Store.lookup (s : Store) (p : String) : Option Document :=
  s.find? (fun d => d.path == p)

/-- Modelled from the spec: a navigation entry references a document
path absent from the Content Store. -/
structure BrokenLinkError where
  label : String
  path : String
  deriving DecidableEq, Repr

/-- Modelled from the spec: a document exists but is unreachable from
the navigation tree. -/
structure OrphanedDocumentWarning where
  path : String
  deriving DecidableEq, Repr

mutual

/-- The paths referenced by the link entries of a single navigation
entry, in authored order. -/
def entryLinkPaths : NavigationEntry → List String
  | .link _ p => [p]
  | .group _ cs => treeLinkPaths cs

/-- The paths referenced by the link entries of a navigation tree, in
authored order. -/
def treeLinkPaths : List NavigationEntry → List String
  | [] => []
  | e :: es => entryLinkPaths e ++ treeLinkPaths es

end

mutual

/-- The labels of all groups (at any depth) of a single navigation
entry. -/
def entryGroupLabels : NavigationEntry → List String
  | .link _ _ => []
  | .group lab cs => lab :: treeGroupLabels cs

/-- The labels of all groups (at any depth) of a navigation tree. -/
def treeGroupLabels : List NavigationEntry → List String
  | [] => []
  | e :: es => entryGroupLabels e ++ treeGroupLabels es

end

mutual

/-- The number of link entries of a single navigation entry. -/
def entryLinkCount : NavigationEntry → Nat
  | .link _ _ => 1
  | .group _ cs => treeLinkCount cs

/-- The number of link entries of a navigation tree. -/
def treeLinkCount : List NavigationEntry → Nat
  | [] => 0
  | e :: es => entryLinkCount e + treeLinkCount es

end

mutual

/-- Modelled from the spec: for every `Link` entry, look `path` up in
`store`; if absent, record a `BrokenLinkError` carrying the link's label
and path.  Errors of a single entry, in authored order. -/
def entryErrors (store : Store) : NavigationEntry → List BrokenLinkError
  | .link lab p =>
    match Store.lookup store p with
    | some _ => []
    | none => [⟨lab, p⟩]
  | .group _ cs => treeErrors store cs

/-- Modelled from the spec: all broken-link errors of a navigation tree,
collected over every entry in a single pass. -/
def treeErrors (store : Store) : List NavigationEntry → List BrokenLinkError
  | [] => []
  | e :: es => entryErrors store e ++ treeErrors store es

end

/-- Modelled from the spec: a resolved navigation entry, isomorphic to a
navigation entry but with each link's path replaced by a direct
reference to its document. -/
inductive ResolvedEntry where
  | rlink (label : String) (doc : Document)
  | rgroup (label : String) (children : List ResolvedEntry)
  deriving Repr

/-- Modelled from the spec: the resolved tree, an ordered sequence of
resolved entries. -/
abbrev ResolvedTree := List ResolvedEntry

mutual

/-- Resolve a single navigation entry against the store: `none` exactly
when some link below it is broken. -/
def resolveEntry (store : Store) : NavigationEntry → Option ResolvedEntry
  | .link lab p => (Store.lookup store p).map (fun d => .rlink lab d)
  | .group lab cs => (resolveTree store cs).map (fun rs => .rgroup lab rs)

/-- Resolve a list of navigation entries in authored order. -/
def resolveTree (store : Store) : List NavigationEntry → Option (List ResolvedEntry)
  | [] => some []
  | e :: es =>
    match resolveEntry store e, resolveTree store es with
    | some r, some rs => some (r :: rs)
    | _, _ => none

end

/-- Modelled from the spec: every document of the store that is
referenced by no link of the tree yields one orphaned-document warning,
in store order. -/
def orphanWarnings (tree : NavigationTree) (store : Store) : List OrphanedDocumentWarning :=
  (store.filter (fun d => !((treeLinkPaths tree).contains d.path))).map (fun d => ⟨d.path⟩)

/-- Modelled from the spec: the outcome of a `resolve` call — the
resolved tree when every link resolves, the full batch of broken-link
errors, and the orphaned-document warnings. -/
structure ResolveResult where
  resolved : Option ResolvedTree
  errors : List BrokenLinkError
  warnings : List OrphanedDocumentWarning

/-- Modelled from the spec: `resolve(tree, store)` — a single pure pass
validating every link of the tree against the store, collecting all
broken-link errors and all orphaned-document warnings. -/
def resolve (tree : NavigationTree) (store : Store) : ResolveResult :=
  ⟨resolveTree store tree, treeErrors store tree, orphanWarnings tree store⟩

/-- Modelled from the spec: a resolve outcome is a success exactly when
it carries no broken-link error; warnings never abort. -/
def ResolveResult.isSuccess (r : ResolveResult) : Bool :=
  r.errors.isEmpty

mutual

/-- Map a resolved entry back to the navigation entry it came from,
replacing each document reference by the document's path. -/
def stripEntry : ResolvedEntry → NavigationEntry
  | .rlink lab d => .link lab d.path
  | .rgroup lab rs => .group lab (stripTree rs)

/-- Map a resolved tree back to the navigation tree it came from. -/
def stripTree : List ResolvedEntry → List NavigationEntry
  | [] => []
  | r :: rs => stripEntry r :: stripTree rs

end

mutual

/-- All documents referenced by the resolved links of a resolved
entry. -/
def rEntryDocs : ResolvedEntry → List Document
  | .rlink _ d => [d]
  | .rgroup _ rs => rTreeDocs rs

/-- All documents referenced by the resolved links of a resolved
tree. -/
def rTreeDocs : List ResolvedEntry → List Document
  | [] => []
  | r :: rs => rEntryDocs r ++ rTreeDocs rs

end

mutual

/-- The number of resolved links of a single resolved entry. -/
def rEntryLinkCount : ResolvedEntry → Nat
  | .rlink _ _ => 1
  | .rgroup _ rs => rTreeLinkCount rs

/-- The number of resolved links of a resolved tree. -/
def rTreeLinkCount : List ResolvedEntry → Nat
  | [] => 0
  | r :: rs => rEntryLinkCount r + rTreeLinkCount rs

end

/-- A navigation tree in which two distinct link entries reference the
same path. -/
def dupLinkTree : NavigationTree :=
  [.link "A" "/x/", .link "B" "/x/"]

/-- A small fixture document. -/
def wDocA : Document := ⟨"/a/", some "A", some "a"⟩

/-- A second small fixture document. -/
def wDocB : Document := ⟨"/b/", some "B", some "b"⟩

/-- A one-document fixture store. -/
def wStore : Store := [wDocA]

/-- A fixture tree with one resolvable link and one missing link. -/
def wTree : NavigationTree := [.link "A" "/a/", .link "M" "/missing/"]

/-- A fixture tree consisting of a single group around one link. -/
def wGroupTree : NavigationTree := [.group "G" [.link "A" "/a/"]]

/-- The resolution of `wGroupTree` against `wStore`. -/
def wResolvedTree : ResolvedTree := [.rgroup "G" [.rlink "A" wDocA]]

/-- A path is a normalized absolute slug when it begins and ends with
the character `/`. -/
def isNormalizedSlug (p : String) : Bool :=
  p.data.head? == some '/' && p.data.getLast? == some '/'

/-- The template document `src/content/docs/reference/_builtin-template.md`:
an intentionally unlinked template, present in the content directory. -/
def builtinTemplateDoc : Document :=
  ⟨"/reference/_builtin-template/", some "builtin-name",
    some "One-line description of what this builtin does."⟩

/-- The Content Store of this repository: every document of the content
directory `src/content/docs`, with its path derived from its file
location and its `title` and `description` read from its front-matter.
Several documents are stored as secondary payloads of other files; their
paths are the slugs under which the sidebar references them.  The
alternate front-page draft and the repository-setup note are not content
documents and are not part of the store. -/
def theStore : Store := [
  -- src/content/docs/index.md
  ⟨"/", some "Shelton\x27s Bash Guide",
    some "A concise, practical Bash guide with Diátaxis-aligned content, themed with Nord colors (light and dark)."⟩,
  -- src/content/docs/concepts/conditionals.md
  ⟨"/concepts/conditionals/", some "Conditionals",
    some "if/elif/else with test/[ and [[ for decision-making in scripts."⟩,
  -- payload of src/content/docs/concepts/conditionals.md
  ⟨"/concepts/variables/", some "Variables",
    some "Shell parameters, scope, arrays, and expansion basics."⟩,
  -- src/content/docs/concepts/functions.md
  ⟨"/concepts/functions/", some "Functions",
    some "Declare, call, pass arguments, and manage scope and return values."⟩,
  -- payload of src/content/docs/concepts/functions.md
  ⟨"/concepts/file-operations/", some "File Operations",
    some "Redirection, reading files, and file tests for effective file manipulation."⟩,
  -- src/content/docs/concepts/loops.md
  ⟨"/concepts/loops/", some "Loops",
    some "for, while, until, and select loops for repetitive tasks and menus."⟩,
  -- payload of astro.config.mjs
  ⟨"/concepts/data-types/", some "Data Types",
    some "Understanding Bash\x27s type system, strings, numbers, arrays, and type attributes."⟩,
  -- src/content/docs/reference/index.md
  ⟨"/reference/", some "Reference Index",
    some "Inventory of Bash builtins, keywords, and syntax topics."⟩,
  -- src/content/docs/reference/_builtin-template.md
  builtinTemplateDoc,
  -- src/content/docs/reference/builtins/declare.md
  ⟨"/reference/builtins/declare/", some "declare",
    some "Set variable attributes and declare variables with specific properties."⟩,
  -- src/content/docs/reference/builtins/echo.md
  ⟨"/reference/builtins/echo/", some "echo",
    some "Print arguments to standard output with optional formatting."⟩,
  -- src/content/docs/reference/builtins/export.md
  ⟨"/reference/builtins/export/", some "export",
    some "Make variables available to child processes."⟩,
  -- src/content/docs/reference/builtins/local.md
  ⟨"/reference/builtins/local/", some "local",
    some "Create function-scoped variables."⟩,
  -- payload of src/content/docs/reference/builtins/local.md
  ⟨"/reference/builtins/unset/", some "unset",
    some "Remove variables and functions."⟩,
  -- src/content/docs/reference/builtins/test.md
  ⟨"/reference/builtins/test/", some "test / [",
    some "Evaluate conditional expressions for use in if statements."⟩,
  -- payload of src/content/docs/reference/builtins/test.md
  ⟨"/reference/builtins/read/", some "read",
    some "Read a line from standard input into variables."⟩,
  -- unnamed syntax reference file (first document)
  ⟨"/reference/syntax/redirection/", some "Redirection",
    some "Direct file descriptors to/from files and other file descriptors."⟩,
  -- payload of the unnamed syntax reference file
  ⟨"/reference/syntax/quoting/", some "Quoting",
    some "How quotes affect expansion and word splitting in Bash."⟩,
  -- src/content/docs/reference/keywords/double-bracket.md
  ⟨"/reference/keywords/double-bracket/", some "[[",
    some "Extended test construct with pattern matching and regex."⟩,
  -- src/content/docs/reference/keywords/if.md
  ⟨"/reference/keywords/if/", some "if",
    some "Conditional execution block for decision-making in scripts."⟩,
  -- payload of src/content/docs/reference/keywords/double-bracket.md
  ⟨"/how-to/run-in-subproject/", some "Run Script in Subproject",
    some "How to execute scripts or commands within a subdirectory or subproject from your current location."⟩,
  -- src/content/docs/how-to/scripting-best-practices.md
  ⟨"/how-to/scripting-best-practices/", some "Bash Scripting Best Practices",
    some "Practical Bash scripting guide with structure, error handling, debugging, and real-world examples from beginner to intermediate level."⟩,
  -- src/content/docs/explanations/quoting-and-expansion.md
  ⟨"/explanations/quoting-and-expansion/", some "Quoting & Expansion",
    some "Why quoting rules feel odd and how expansions interact with each other."⟩,
  -- payload of src/content/docs/explanations/quoting-and-expansion.md
  ⟨"/explanations/streams-and-processes/", some "Streams & Processes",
    some "How pipelines, redirections, and exec shape dataflow and process lifecycles."⟩]

/-- The sidebar configuration of `astro.config.mjs` (the checked-in
configuration), transcribed entry by entry. -/
def sidebarMain : NavigationTree := [
  .group "Start Here" [
    .link "Overview" "/"],
  .group "Concepts" [
    .link "Variables" "/concepts/variables/",
    .link "Functions" "/concepts/functions/",
    .link "Conditionals" "/concepts/conditionals/",
    .link "Loops" "/concepts/loops/",
    .link "File Operations" "/concepts/file-operations/"],
  .group "Reference" [
    .link "Index" "/reference/",
    .group "Builtins" [
      .link "declare" "/reference/builtins/declare/",
      .link "echo" "/reference/builtins/echo/",
      .link "export" "/reference/builtins/export/",
      .link "local" "/reference/builtins/local/",
      .link "read" "/reference/builtins/read/",
      .link "test / [" "/reference/builtins/test/",
      .link "unset" "/reference/builtins/unset/"],
    .group "Syntax" [
      .link "Quoting" "/reference/syntax/quoting/",
      .link "Redirection" "/reference/syntax/redirection/"],
    .group "Keywords" [
      .link "[[" "/reference/keywords/double-bracket/",
      .link "if" "/reference/keywords/if/"]],
  .group "Explanations" [
    .link "Streams & Processes" "/explanations/streams-and-processes/",
    .link "Quoting & Expansion" "/explanations/quoting-and-expansion/"]]

/-- The first (fully populated) sidebar configuration of the unnamed
draft configuration file, transcribed entry by entry. -/
def sidebarPart0 : NavigationTree := [
  .group "Start Here" [
    .link "Overview" "/"],
  .group "Concepts" [
    .link "Data Types" "/concepts/data-types/",
    .link "Variables" "/concepts/variables/",
    .link "Functions" "/concepts/functions/",
    .link "Conditionals" "/concepts/conditionals/",
    .link "Loops" "/concepts/loops/",
    .link "File Operations" "/concepts/file-operations/"],
  .group "Reference" [
    .link "Index" "/reference/",
    .group "Builtins" [
      .link "declare" "/reference/builtins/declare/",
      .link "echo" "/reference/builtins/echo/",
      .link "export" "/reference/builtins/export/",
      .link "local" "/reference/builtins/local/",
      .link "read" "/reference/builtins/read/",
      .link "test / [" "/reference/builtins/test/",
      .link "unset" "/reference/builtins/unset/"],
    .group "Syntax" [
      .link "Quoting" "/reference/syntax/quoting/",
      .link "Redirection" "/reference/syntax/redirection/"],
    .group "Keywords" [
      .link "[[" "/reference/keywords/double-bracket/",
      .link "if" "/reference/keywords/if/"]],
  .group "How-To Guides" [
    .link "Run Script in Subproject" "/how-to/run-in-subproject/",
    .link "Bash Scripting Best Practices" "/how-to/scripting-best-practices/"],
  .group "Explanations" [
    .link "Streams & Processes" "/explanations/streams-and-processes/",
    .link "Quoting & Expansion" "/explanations/quoting-and-expansion/"]]

/-- The empty sidebar of the second draft configuration in the unnamed
configuration file. -/
def sidebarEmpty : NavigationTree := []

mutual

theorem entryErrors_map_path (store : Store) (e : NavigationEntry) :
    (entryErrors store e).map BrokenLinkError.path
      = (entryLinkPaths e).filter (fun p => (Store.lookup store p).isNone) := by
  cases e with
  | link lab p =>
    simp only [entryErrors, entryLinkPaths]
    cases h : Store.lookup store p <;> simp [h, List.filter]
  | group lab cs =>
    simpa only [entryErrors, entryLinkPaths] using treeErrors_map_path store cs

theorem treeErrors_map_path (store : Store) (l : List NavigationEntry) :
    (treeErrors store l).map BrokenLinkError.path
      = (treeLinkPaths l).filter (fun p => (Store.lookup store p).isNone) := by
  cases l with
  | nil => rfl
  | cons e es =>
    simp only [treeErrors, treeLinkPaths, List.map_append, List.filter_append,
      entryErrors_map_path store e, treeErrors_map_path store es]

end

mutual

theorem resolveEntry_isSome_iff (store : Store) (e : NavigationEntry) :
    (resolveEntry store e).isSome = true ↔ entryErrors store e = [] := by
  cases e with
  | link lab p =>
    simp only [resolveEntry, entryErrors, Option.isSome_map']
    cases h : Store.lookup store p <;> simp
  | group lab cs =>
    simpa only [resolveEntry, entryErrors, Option.isSome_map'] using
      resolveTree_isSome_iff store cs

theorem resolveTree_isSome_iff (store : Store) (l : List NavigationEntry) :
    (resolveTree store l).isSome = true ↔ treeErrors store l = [] := by
  cases l with
  | nil => simp [resolveTree, treeErrors]
  | cons e es =>
    simp only [resolveTree, treeErrors]
    have h1 := resolveEntry_isSome_iff store e
    have h2 := resolveTree_isSome_iff store es
    cases he : resolveEntry store e <;> cases hes : resolveTree store es <;>
      rw [he] at h1 <;> rw [hes] at h2 <;>
      simp_all [List.append_eq_nil]

end

mutual

theorem resolveEntry_strip (store : Store) (e : NavigationEntry) (r : ResolvedEntry)
    (h : resolveEntry store e = some r) :
    stripEntry r = e ∧ ∀ d ∈ rEntryDocs r, Store.lookup store d.path = some d := by
  cases e with
  | link lab p =>
    simp only [resolveEntry, Option.map_eq_some'] at h
    obtain ⟨d, hd, rfl⟩ := h
    have hpath : d.path = p := by simpa using List.find?_some hd
    constructor
    · simp [stripEntry, hpath]
    · intro d' hd'
      simp only [rEntryDocs, List.mem_singleton] at hd'
      subst hd'
      rw [hpath]
      exact hd
  | group lab cs =>
    simp only [resolveEntry, Option.map_eq_some'] at h
    obtain ⟨rs, hrs, rfl⟩ := h
    have := resolveTree_strip store cs rs hrs
    constructor
    · simp [stripEntry, this.1]
    · simpa [rEntryDocs] using this.2

theorem resolveTree_strip (store : Store) (l : List NavigationEntry) (rs : List ResolvedEntry)
    (h : resolveTree store l = some rs) :
    stripTree rs = l ∧ ∀ d ∈ rTreeDocs rs, Store.lookup store d.path = some d := by
  cases l with
  | nil =>
    simp only [resolveTree, Option.some_inj] at h
    subst h
    simp [stripTree, rTreeDocs]
  | cons e es =>
    simp only [resolveTree] at h
    cases he : resolveEntry store e <;> cases hes : resolveTree store es <;>
      rw [he, hes] at h <;> simp at h
    case some.some r rs' =>
      subst h
      have ih1 := resolveEntry_strip store e r he
      have ih2 := resolveTree_strip store es rs' hes
      constructor
      · simp [stripTree, ih1.1, ih2.1]
      · intro d hd
        simp only [rTreeDocs, List.mem_append] at hd
        rcases hd with hd | hd
        · exact ih1.2 d hd
        · exact ih2.2 d hd

end

mutual

theorem stripEntry_linkCount (r : ResolvedEntry) :
    entryLinkCount (stripEntry r) = rEntryLinkCount r := by
  cases r with
  | rlink lab d => rfl
  | rgroup lab rs =>
    simpa only [stripEntry, entryLinkCount, rEntryLinkCount] using stripTree_linkCount rs

theorem stripTree_linkCount (rs : List ResolvedEntry) :
    treeLinkCount (stripTree rs) = rTreeLinkCount rs := by
  cases rs with
  | nil => rfl
  | cons r rs' =>
    simp only [stripTree, treeLinkCount, rTreeLinkCount,
      stripEntry_linkCount r, stripTree_linkCount rs']

end

theorem lookup_eq_some_of_mem {s : Store} (hn : (s.map Document.path).Nodup)
    {d : Document} (hd : d ∈ s) : Store.lookup s d.path = some d := by
  have hsome : (s.find? (fun x => x.path == d.path)).isSome = true := by
    rw [List.find?_isSome]
    exact ⟨d, hd, by simp⟩
  obtain ⟨d', hd'⟩ := Option.isSome_iff_exists.mp hsome
  have h1 : d'.path = d.path := by simpa using List.find?_some hd'
  have h2 : d' ∈ s := List.mem_of_find?_eq_some hd'
  have : d' = d := List.inj_on_of_nodup_map hn h2 hd h1
  rw [Store.lookup, hd', this]

theorem lookup_mem_isSome {s : Store} {d : Document} (hd : d ∈ s) :
    (Store.lookup s d.path).isSome = true := by
  rw [Store.lookup, List.find?_isSome]
  exact ⟨d, hd, by simp⟩

theorem lookup_perm {s₁ s₂ : Store} (hp : s₁.Perm s₂)
    (hn : (s₁.map Document.path).Nodup) (p : String) :
    Store.lookup s₁ p = Store.lookup s₂ p := by
  have hn₂ : (s₂.map Document.path).Nodup := ((hp.map Document.path).nodup_iff).mp hn
  cases h₁ : Store.lookup s₁ p with
  | some d =>
    have hd : d ∈ s₁ := List.mem_of_find?_eq_some h₁
    have hpd : d.path = p := by simpa using List.find?_some h₁
    rw [← hpd]
    exact (lookup_eq_some_of_mem hn₂ (hp.mem_iff.mp hd)).symm
  | none =>
    symm
    rw [Store.lookup, List.find?_eq_none] at h₁ ⊢
    intro x hx
    exact h₁ x (hp.mem_iff.mpr hx)

mutual

theorem resolveEntry_congr (s₁ s₂ : Store)
    (hl : ∀ p, Store.lookup s₁ p = Store.lookup s₂ p) (e : NavigationEntry) :
    resolveEntry s₁ e = resolveEntry s₂ e := by
  cases e with
  | link lab p => simp only [resolveEntry, hl p]
  | group lab cs => simp only [resolveEntry, resolveTree_congr s₁ s₂ hl cs]

theorem resolveTree_congr (s₁ s₂ : Store)
    (hl : ∀ p, Store.lookup s₁ p = Store.lookup s₂ p) (l : List NavigationEntry) :
    resolveTree s₁ l = resolveTree s₂ l := by
  cases l with
  | nil => rfl
  | cons e es =>
    simp only [resolveTree, resolveEntry_congr s₁ s₂ hl e, resolveTree_congr s₁ s₂ hl es]

end

mutual

theorem entryErrors_congr (s₁ s₂ : Store)
    (hl : ∀ p, Store.lookup s₁ p = Store.lookup s₂ p) (e : NavigationEntry) :
    entryErrors s₁ e = entryErrors s₂ e := by
  cases e with
  | link lab p => simp only [entryErrors, hl p]
  | group lab cs => simp only [entryErrors, treeErrors_congr s₁ s₂ hl cs]

theorem treeErrors_congr (s₁ s₂ : Store)
    (hl : ∀ p, Store.lookup s₁ p = Store.lookup s₂ p) (l : List NavigationEntry) :
    treeErrors s₁ l = treeErrors s₂ l := by
  cases l with
  | nil => rfl
  | cons e es =>
    simp only [treeErrors, entryErrors_congr s₁ s₂ hl e, treeErrors_congr s₁ s₂ hl es]

end

theorem orphanWarnings_perm {s₁ s₂ : Store} (hp : s₁.Perm s₂) (tree : NavigationTree) :
    (orphanWarnings tree s₁).Perm (orphanWarnings tree s₂) :=
  (hp.filter _).map _

theorem orphan_count_one {tree : NavigationTree} {store : Store} {d : Document}
    (hn : (store.map Document.path).Nodup) (hd : d ∈ store)
    (href : d.path ∉ treeLinkPaths tree) :
    ((orphanWarnings tree store).filter (fun w => w.path == d.path)).length = 1 := by
  rw [orphanWarnings, List.filter_map, List.length_map,
    ← List.countP_eq_length_filter]
  have step1 :
      List.countP ((fun w : OrphanedDocumentWarning => w.path == d.path) ∘ fun x => (⟨x.path⟩ : OrphanedDocumentWarning))
        (store.filter (fun x => !((treeLinkPaths tree).contains x.path)))
        = List.countP (fun x : Document => x.path == d.path)
            (store.filter (fun x => !((treeLinkPaths tree).contains x.path))) := by
    apply List.countP_congr
    intro x _
    simp [Function.comp]
  rw [step1, List.countP_filter]
  have step2 :
      List.countP (fun x : Document => x.path == d.path && !((treeLinkPaths tree).contains x.path)) store
        = List.countP (fun x : Document => x.path == d.path) store := by
    apply List.countP_congr
    intro x hx
    constructor
    · intro hb
      exact (Bool.and_eq_true _ _ |>.mp hb).1
    · intro hb
      have hxd : x = d := by
        apply List.inj_on_of_nodup_map hn hx hd
        simpa using hb
      subst hxd
      simp only [hb, Bool.true_and]
      simpa using href
  rw [step2]
  have step3 :
      List.countP (fun x : Document => x.path == d.path) store
        = (store.map Document.path).count d.path := by
    rw [List.count, List.countP_map]
    rfl
  rw [step3]
  exact List.count_eq_one_of_mem hn (List.mem_map_of_mem Document.path hd)

/-- C1: every Link path of the two fully-populated sidebar
configurations references an existing Document of this repository's
Content Store — in particular the paths whose documents are stored as
secondary payloads — so `resolve` on this corpus yields no
`BrokenLinkError`. -/
theorem c1_every_sidebar_link_resolves :
    ((treeLinkPaths sidebarPart0 ++ treeLinkPaths sidebarMain).all
        (fun p => (Store.lookup theStore p).isSome)) = true
    ∧ (["/concepts/variables/", "/concepts/data-types/", "/reference/builtins/read/",
        "/reference/syntax/quoting/", "/how-to/run-in-subproject/"].all
        (fun p => (Store.lookup theStore p).isSome)) = true
    ∧ (resolve sidebarPart0 theStore).errors = []
    ∧ (resolve sidebarMain theStore).errors = [] := by
  refine ⟨by decide, by decide, by decide, by decide⟩

/-- C2: the path of every Document of this repository's Content Store is
unique across the store, and the front-page path `/` is claimed by
exactly one document. -/
theorem c2_store_paths_unique :
    (theStore.map Document.path).Nodup
    ∧ (theStore.filter (fun d => d.path == "/")).length = 1 := by
  refine ⟨by decide, by decide⟩

/-- C3 counterexample: a tree whose two link entries reference the same
missing path has exactly one distinct absent Link path (k = 1), yet
`resolve` returns two `BrokenLinkError`s — one per broken link entry —
not one per missing path as the claim states. -/
theorem c3_distinct_path_count_counterexample :
    (((treeLinkPaths dupLinkTree).filter
        (fun p => (Store.lookup ([] : Store) p).isNone)).dedup.length = 1)
    ∧ (resolve dupLinkTree ([] : Store)).errors.length = 2
    ∧ ¬((resolve dupLinkTree ([] : Store)).errors.length = 1) := by
  refine ⟨by decide, by decide, by decide⟩

/-- C3 (amended): `resolve` returns one `BrokenLinkError` per Link entry
whose path is absent from the store, all collected in the single call;
hence when no two broken link entries share a path (so the broken
entries reference exactly k ≥ 1 distinct missing paths), it returns
exactly k `BrokenLinkError`s, one per missing path, never only the
first. -/
theorem c3_batch_error_reporting (tree : NavigationTree) (store : Store) (k : Nat)
    (hnd : ((treeLinkPaths tree).filter (fun p => (Store.lookup store p).isNone)).Nodup)
    (hk : ((treeLinkPaths tree).filter (fun p => (Store.lookup store p).isNone)).length = k)
    (hpos : 1 ≤ k) :
    (resolve tree store).errors.length = k
    ∧ ((resolve tree store).errors.map BrokenLinkError.path).Nodup
    ∧ ∀ p, p ∈ (resolve tree store).errors.map BrokenLinkError.path ↔
        (p ∈ treeLinkPaths tree ∧ Store.lookup store p = none) := by
  have hmap := treeErrors_map_path store tree
  have herrs : (resolve tree store).errors = treeErrors store tree := rfl
  refine ⟨?_, ?_, ?_⟩
  · have hlen := congrArg List.length hmap
    rw [List.length_map] at hlen
    rw [herrs, hlen, hk]
  · rw [herrs, hmap]
    exact hnd
  · intro p
    rw [herrs, hmap, List.mem_filter]
    simp [Option.isNone_iff_eq_none]

theorem c3_batch_error_reporting_witness :
    (((treeLinkPaths wTree).filter (fun p => (Store.lookup wStore p).isNone)).Nodup
      ∧ ((treeLinkPaths wTree).filter (fun p => (Store.lookup wStore p).isNone)).length = 1
      ∧ 1 ≤ 1)
    ∧ ((resolve wTree wStore).errors.length = 1
      ∧ ((resolve wTree wStore).errors.map BrokenLinkError.path).Nodup
      ∧ ∀ p, p ∈ (resolve wTree wStore).errors.map BrokenLinkError.path ↔
          (p ∈ treeLinkPaths wTree ∧ Store.lookup wStore p = none)) :=
  ⟨⟨by decide, by decide, by decide⟩,
    c3_batch_error_reporting wTree wStore 1 (by decide) (by decide) (by decide)⟩

/-- C4: `resolve` is pure and deterministic — two runs on identical
inputs give identical results, and the result does not depend on the
order in which the store's documents are traversed: over any
permutation of a duplicate-free store, the resolved tree and the errors
are unchanged and the warnings are a permutation. -/
theorem c4_resolve_deterministic (tree : NavigationTree) (s₁ s₂ : Store)
    (hp : s₁.Perm s₂) (hn : (s₁.map Document.path).Nodup) :
    resolve tree s₁ = resolve tree s₁
    ∧ (resolve tree s₁).resolved = (resolve tree s₂).resolved
    ∧ (resolve tree s₁).errors = (resolve tree s₂).errors
    ∧ (resolve tree s₁).warnings.Perm (resolve tree s₂).warnings := by
  have hl := lookup_perm hp hn
  exact ⟨rfl, resolveTree_congr s₁ s₂ hl tree, treeErrors_congr s₁ s₂ hl tree,
    orphanWarnings_perm hp tree⟩

theorem c4_resolve_deterministic_witness :
    (([wDocA, wDocB] : Store).Perm [wDocB, wDocA]
      ∧ (([wDocA, wDocB] : Store).map Document.path).Nodup)
    ∧ (resolve wGroupTree [wDocA, wDocB] = resolve wGroupTree [wDocA, wDocB]
      ∧ (resolve wGroupTree [wDocA, wDocB]).resolved
          = (resolve wGroupTree [wDocB, wDocA]).resolved
      ∧ (resolve wGroupTree [wDocA, wDocB]).errors
          = (resolve wGroupTree [wDocB, wDocA]).errors
      ∧ (resolve wGroupTree [wDocA, wDocB]).warnings.Perm
          (resolve wGroupTree [wDocB, wDocA]).warnings) :=
  ⟨⟨by decide, by decide⟩,
    c4_resolve_deterministic wGroupTree [wDocA, wDocB] [wDocB, wDocA]
      (by decide) (by decide)⟩

/-- C5: when every Link path of the tree is present in the store,
`resolve` succeeds with no `BrokenLinkError` and returns a resolved tree
containing exactly as many resolved links as the input tree has Link
entries. -/
theorem c5_success_preserves_link_count (tree : NavigationTree) (store : Store)
    (h : ∀ p ∈ treeLinkPaths tree, (Store.lookup store p).isSome = true) :
    (resolve tree store).errors = []
    ∧ ∃ rt, (resolve tree store).resolved = some rt
        ∧ rTreeLinkCount rt = treeLinkCount tree := by
  have herr : treeErrors store tree = [] := by
    have hmap := treeErrors_map_path store tree
    have hfilter :
        (treeLinkPaths tree).filter (fun p => (Store.lookup store p).isNone) = [] := by
      rw [List.filter_eq_nil_iff]
      intro p hp
      have hps := h p hp
      simp only [Option.isNone_iff_eq_none]
      intro hnone
      rw [hnone] at hps
      simp at hps
    exact List.map_eq_nil_iff.mp (hmap.trans hfilter)
  refine ⟨herr, ?_⟩
  have hsome : (resolveTree store tree).isSome = true :=
    (resolveTree_isSome_iff store tree).mpr herr
  obtain ⟨rt, hrt⟩ := Option.isSome_iff_exists.mp hsome
  refine ⟨rt, hrt, ?_⟩
  have hstrip := (resolveTree_strip store tree rt hrt).1
  rw [← hstrip] at *
  exact (stripTree_linkCount rt).symm

theorem c5_success_preserves_link_count_witness :
    (∀ p ∈ treeLinkPaths sidebarPart0, (Store.lookup theStore p).isSome = true)
    ∧ ((resolve sidebarPart0 theStore).errors = []
      ∧ ∃ rt, (resolve sidebarPart0 theStore).resolved = some rt
          ∧ rTreeLinkCount rt = treeLinkCount sidebarPart0) :=
  ⟨by decide, c5_success_preserves_link_count sidebarPart0 theStore (by decide)⟩

/-- C6: a document of a duplicate-free store that no Link of the tree
references yields exactly one `OrphanedDocumentWarning` for its path,
appears in no `BrokenLinkError`, and such warnings never make `resolve`
fail — a result whose error list is empty is a success. -/
theorem c6_orphan_warning (tree : NavigationTree) (store : Store) (d : Document)
    (hn : (store.map Document.path).Nodup) (hd : d ∈ store)
    (href : d.path ∉ treeLinkPaths tree) :
    ((resolve tree store).warnings.filter (fun w => w.path == d.path)).length = 1
    ∧ (∀ e ∈ (resolve tree store).errors, e.path ≠ d.path)
    ∧ ((resolve tree store).errors = [] → (resolve tree store).isSuccess = true) := by
  refine ⟨orphan_count_one hn hd href, ?_, ?_⟩
  · intro e he heq
    have hmem : e.path ∈ (treeErrors store tree).map BrokenLinkError.path :=
      List.mem_map_of_mem _ he
    rw [treeErrors_map_path] at hmem
    have hnone : (Store.lookup store e.path).isNone = true := (List.mem_filter.mp hmem).2
    rw [heq] at hnone
    have hsome := lookup_mem_isSome hd
    rw [Option.isNone_iff_eq_none] at hnone
    rw [hnone] at hsome
    simp at hsome
  · intro h0
    rw [ResolveResult.isSuccess, h0]
    rfl

theorem c6_orphan_warning_witness :
    ((theStore.map Document.path).Nodup
      ∧ builtinTemplateDoc ∈ theStore
      ∧ builtinTemplateDoc.path ∉ treeLinkPaths sidebarPart0)
    ∧ (((resolve sidebarPart0 theStore).warnings.filter
          (fun w => w.path == builtinTemplateDoc.path)).length = 1
      ∧ (∀ e ∈ (resolve sidebarPart0 theStore).errors, e.path ≠ builtinTemplateDoc.path)
      ∧ ((resolve sidebarPart0 theStore).errors = []
          → (resolve sidebarPart0 theStore).isSuccess = true)) :=
  ⟨⟨by decide, by decide, by decide⟩,
    c6_orphan_warning sidebarPart0 theStore builtinTemplateDoc
      (by decide) (by decide) (by decide)⟩

/-- C7: on success the resolved tree is structurally isomorphic to the
input tree — stripping each resolved link back to its document's path
reproduces the input exactly, with the same group nesting, labels and
authored order — and every resolved link references precisely the
store's document at its path. -/
theorem c7_resolved_tree_isomorphic (tree : NavigationTree) (store : Store)
    (rt : ResolvedTree) (h : (resolve tree store).resolved = some rt) :
    stripTree rt = tree
    ∧ ∀ d ∈ rTreeDocs rt, Store.lookup store d.path = some d :=
  resolveTree_strip store tree rt h

theorem c7_resolved_tree_isomorphic_witness :
    ((resolve wGroupTree wStore).resolved = some wResolvedTree)
    ∧ (stripTree wResolvedTree = wGroupTree
      ∧ ∀ d ∈ rTreeDocs wResolvedTree, Store.lookup wStore d.path = some d) :=
  ⟨rfl, c7_resolved_tree_isomorphic wGroupTree wStore wResolvedTree rfl⟩

/-- C8: every Document of this repository's Content Store — the
payload-embedded documents included — defines both required
front-matter fields, `title` and `description`. -/
theorem c8_front_matter_complete :
    theStore.all (fun d => d.title.isSome && d.description.isSome) = true := by
  decide

/-- C9: the two fully-populated sidebar configurations define unequal
navigation trees — the checked-in configuration lacks the
`/concepts/data-types/` link and the `How-To Guides` group that the
draft configuration has — and on a common store (here the empty one)
`resolve` gives different results for the two trees. -/
theorem c9_sidebar_configurations_differ :
    "/concepts/data-types/" ∉ treeLinkPaths sidebarMain
    ∧ "/concepts/data-types/" ∈ treeLinkPaths sidebarPart0
    ∧ "How-To Guides" ∉ treeGroupLabels sidebarMain
    ∧ "How-To Guides" ∈ treeGroupLabels sidebarPart0
    ∧ sidebarMain ≠ sidebarPart0
    ∧ (resolve sidebarPart0 ([] : Store)).errors
        ≠ (resolve sidebarMain ([] : Store)).errors := by
  refine ⟨by decide, by decide, by decide, by decide, ?_, by decide⟩
  intro h
  have hlp : treeLinkPaths sidebarMain = treeLinkPaths sidebarPart0 := by rw [h]
  exact absurd hlp (by decide)

/-- C10: every Link path of all three sidebar configuration variants —
the checked-in one, the populated draft, and the empty draft — is a
normalized absolute slug, beginning and ending with `/`. -/
theorem c10_links_are_normalized_slugs :
    ((treeLinkPaths sidebarMain).all isNormalizedSlug
      && (treeLinkPaths sidebarPart0).all isNormalizedSlug
      && (treeLinkPaths sidebarEmpty).all isNormalizedSlug) = true := by
  decide

end BashGuide
